import Mathlib

/-!
Shallow embedding of the picogrow moisture-monitor core
(`src/main.py` and `src/calibrate.py`).

Python floats are modelled by rationals (`ℚ`): every arithmetic step of the
embedded code is exact, and all definitions are executable.  The pulse count
delivered by the rising-edge interrupt during a sampling window is an
environment input (`edges : ℕ`); file I/O is modelled by an explicit
`FileState` value threaded through the functions that read or write the
persisted configuration file.
-/

namespace PicoGrow

/-- Persisted calibration record held by `Configuration` in `src/main.py`:
`dry_freq` and `wet_freq` in hertz. -/
structure Config where
  dry_freq : ℚ
  wet_freq : ℚ
deriving DecidableEq, Repr

/-- State of the persisted configuration file `moisture_config.json`.
`object d w` is a JSON object whose `dry_freq` / `wet_freq` fields are
present (`some`) or missing (`none`); `absent` is a missing file and
`corrupt` a file that fails to open or parse. -/
inductive FileState where
  | absent : FileState
  | corrupt : FileState
  | object (dry_freq : Option ℚ) (wet_freq : Option ℚ) : FileState
deriving DecidableEq, Repr

/-- Mutable state of `MoistureSensor` (`src/main.py`, lines 139-171):
the interrupt-driven pulse counter and the cached last frequency. -/
structure SensorState where
  pulse_count : ℕ
  last_frequency : ℚ
deriving DecidableEq, Repr

/-- Embedding of `MoistureSensor.read_frequency` (`src/main.py`, lines
151-171).  The counter is reset to zero and the interrupt then counts
`edges` rising edges during the `sample_time`-second window, so the window
yields `edges` regardless of the incoming state `s`; the function returns
the updated sensor state and the computed frequency
`pulse_count / sample_time`. -/
def read_frequency (s : SensorState) (edges : ℕ) (sample_time : ℚ) :
    SensorState × ℚ :=
  let _ := s
  let frequency : ℚ := (edges : ℚ) / sample_time
  ({ pulse_count := edges, last_frequency := frequency }, frequency)

/-- Embedding of the frequency-to-percent logic of
`MoistureSensor.read_moisture_percent` (`src/main.py`, lines 173-191),
taking the measured frequency `freq` as an explicit input: clamp the
frequency with `max (min freq dry_freq) wet_freq`, return `0` when
`dry_freq = wet_freq`, otherwise interpolate inversely and clamp the
result into `[0, 100]`. -/
def read_moisture_percent (dry_freq wet_freq freq : ℚ) : ℚ :=
  let f := max (min freq dry_freq) wet_freq
  if dry_freq = wet_freq then 0
  else max 0 (min 100 ((dry_freq - f) / (dry_freq - wet_freq) * 100))

/-- Embedding of `Configuration.save` (`src/main.py`, lines 282-290) and of
`save_config` in `src/calibrate.py` (lines 94-104): write a JSON object
with both fields present. -/
def Configuration.save (c : Config) : FileState :=
  .object (some c.dry_freq) (some c.wet_freq)

/-- Embedding of `Configuration.load` (`src/main.py`, lines 270-280),
run from `__init__` with defaults `dry_freq = 27.0`, `wet_freq = 5.0`:
when the file opens and parses, each field is read with
`data.get(key, default)` and the file is left untouched; on any failure
the defaults are kept and `save()` rewrites the file with them.
Returns the resulting `Config` together with the file state afterwards. -/
def Configuration.load (file : FileState) : Config × FileState :=
  match file with
  | .object d w => ({ dry_freq := d.getD 27, wet_freq := w.getD 5 }, file)
  | _ =>
      let c : Config := { dry_freq := 27, wet_freq := 5 }
      (c, Configuration.save c)

/-- Outcome of the validation-and-save tail of `main` in
`src/calibrate.py` (lines 196-224): whether the new values were persisted,
the file state afterwards, and which plausibility warnings were shown. -/
structure CalibrationOutcome where
  saved : Bool
  file : FileState
  warned_low_dry : Bool
  warned_high_wet : Bool
deriving DecidableEq, Repr

/-- Embedding of the validation-and-save tail of `main` in
`src/calibrate.py` (lines 196-224): given the persisted file and the two
measured frequencies, reject (leaving the file untouched) when
`wet_freq >= dry_freq`; otherwise warn when `dry_freq < 15` or
`wet_freq > 10` and then persist both values via `save_config`. -/
def calibrate_main (file : FileState) (dry_freq wet_freq : ℚ) :
    CalibrationOutcome :=
  if wet_freq ≥ dry_freq then
    { saved := false, file := file, warned_low_dry := false,
      warned_high_wet := false }
  else
    { saved := true
      file := Configuration.save { dry_freq := dry_freq, wet_freq := wet_freq }
      warned_low_dry := decide (dry_freq < 15)
      warned_high_wet := decide (wet_freq > 10) }

/-- Reference algorithm of the spec (§4.2, steps 2-3) for the moisture
conversion, written from the spec's words for comparison with
`read_moisture_percent`: clamp the frequency into `[w, d]` via
`max (min freq d) w`, then return `(d - clamped) / (d - w) * 100`. -/
def spec_to_moisture_percent (d w freq : ℚ) : ℚ :=
  (d - max (min freq d) w) / (d - w) * 100

end PicoGrow

namespace PicoGrow

/-- Helper: under a valid calibration `w < d`, the defensive outer clamp of
`read_moisture_percent` is the identity, so the conversion equals the bare
interpolation on the clamped frequency. -/
lemma read_moisture_percent_eq_of_lt (d w freq : ℚ) (h : w < d) :
    read_moisture_percent d w freq =
      (d - max (min freq d) w) / (d - w) * 100 := by
  have hne : d ≠ w := ne_of_gt h
  have hc_le : max (min freq d) w ≤ d :=
    max_le (min_le_right freq d) (le_of_lt h)
  have hw_le : w ≤ max (min freq d) w := le_max_right _ _
  have hpos : 0 < d - w := sub_pos.mpr h
  set c := max (min freq d) w with hc
  have h0 : 0 ≤ (d - c) / (d - w) * 100 := by
    have : 0 ≤ d - c := sub_nonneg.mpr hc_le
    positivity
  have h100 : (d - c) / (d - w) * 100 ≤ 100 := by
    have hle : (d - c) / (d - w) ≤ 1 := by
      rw [div_le_one hpos]
      exact sub_le_sub_left hw_le d
    nlinarith
  simp only [read_moisture_percent, hne, if_false, ← hc]
  rw [min_eq_right h100, max_eq_right h0]

end PicoGrow

namespace PicoGrow

/-- C1: for every frequency input and every pair of calibration values, the
moisture conversion returns a value in the closed interval [0, 100]; as a
total function on rationals it raises no exception and, by construction,
never divides by zero. -/
theorem read_moisture_percent_bounds (d w freq : ℚ) :
    0 ≤ read_moisture_percent d w freq ∧ read_moisture_percent d w freq ≤ 100 := by
  unfold read_moisture_percent
  split
  · norm_num
  · constructor
    · exact le_max_left 0 _
    · exact max_le (by norm_num) (min_le_left 100 _)

/-- C2: under the precondition `w < d`, the moisture conversion equals the
spec's reference algorithm (clamp into `[w, d]`, then
`(d - clamped) / (d - w) * 100`); in particular with `d = 27`, `w = 5` the
conversion of frequency 16 is 50, of 30 is 0, and of 0 is 100. -/
theorem read_moisture_percent_refines_spec (d w freq : ℚ) (h : w < d) :
    read_moisture_percent d w freq = spec_to_moisture_percent d w freq ∧
      read_moisture_percent 27 5 16 = 50 ∧
      read_moisture_percent 27 5 30 = 0 ∧
      read_moisture_percent 27 5 0 = 100 := by
  refine ⟨?_, ?_, ?_, ?_⟩
  · rw [read_moisture_percent_eq_of_lt d w freq h, spec_to_moisture_percent]
  all_goals norm_num [read_moisture_percent]

/-- Witness for C2 at `d = 27`, `w = 5`, `freq = 16`. -/
theorem read_moisture_percent_refines_spec_witness :
    read_moisture_percent 27 5 16 = spec_to_moisture_percent 27 5 16 ∧
      read_moisture_percent 27 5 16 = 50 ∧
      read_moisture_percent 27 5 30 = 0 ∧
      read_moisture_percent 27 5 0 = 100 :=
  read_moisture_percent_refines_spec 27 5 16 (by norm_num)

/-- C3: under a valid calibration `w < d`, the moisture conversion is
antitone on the calibrated range: for `w ≤ f1 < f2 ≤ d` the percent at `f1`
is at least the percent at `f2`. -/
theorem read_moisture_percent_antitone (d w f1 f2 : ℚ) (hwd : w < d)
    (h1 : w ≤ f1) (h12 : f1 < f2) (h2 : f2 ≤ d) :
    read_moisture_percent d w f2 ≤ read_moisture_percent d w f1 := by
  have hw2 : w ≤ f2 := le_trans h1 (le_of_lt h12)
  have hd1 : f1 ≤ d := le_trans (le_of_lt h12) h2
  rw [read_moisture_percent_eq_of_lt d w f1 hwd,
    read_moisture_percent_eq_of_lt d w f2 hwd,
    min_eq_left hd1, max_eq_left h1, min_eq_left h2, max_eq_left hw2]
  have hpos : 0 < d - w := sub_pos.mpr hwd
  have hnum : d - f2 ≤ d - f1 := sub_le_sub_left (le_of_lt h12) d
  gcongr

/-- Witness for C3 at `d = 27`, `w = 5`, `f1 = 10`, `f2 = 20`. -/
theorem read_moisture_percent_antitone_witness :
    read_moisture_percent 27 5 20 ≤ read_moisture_percent 27 5 10 :=
  read_moisture_percent_antitone 27 5 10 20 (by norm_num) (by norm_num)
    (by norm_num) (by norm_num)

/-- C4: when the two calibration values coincide, the moisture conversion
returns exactly 0 for every frequency input and performs no division by
zero (the degenerate branch returns before any division). -/
theorem read_moisture_percent_degenerate (d freq : ℚ) :
    read_moisture_percent d d freq = 0 := by
  simp [read_moisture_percent]

/-- C5: for every positive sample duration, `read_frequency` returns
exactly `pulse_count / sample_duration` for the `edges` rising edges
counted in the window; 10 pulses over 2 seconds give 5 Hz, and zero pulses
give the valid result 0 Hz. -/
theorem read_frequency_spec (s : SensorState) (edges : ℕ) (t : ℚ)
    (ht : 0 < t) :
    (read_frequency s edges t).2 = (edges : ℚ) / t ∧
      (read_frequency s 10 2).2 = 5 ∧
      (read_frequency s 0 t).2 = 0 := by
  refine ⟨rfl, ?_, ?_⟩ <;> norm_num [read_frequency]

/-- Witness for C5 at `edges = 10`, `t = 2`. -/
theorem read_frequency_spec_witness :
    (read_frequency ⟨0, 0⟩ 10 2).2 = (10 : ℚ) / 2 ∧
      (read_frequency ⟨0, 0⟩ 10 2).2 = 5 ∧
      (read_frequency ⟨0, 0⟩ 0 2).2 = 0 :=
  read_frequency_spec ⟨0, 0⟩ 10 2 (by norm_num)

/-- C6: when a calibration run measures `wet_freq ≥ dry_freq`, the
procedure refuses the values: nothing is saved and the persisted file is
left exactly as it was. -/
theorem calibrate_main_rejects_inverted (file : FileState) (d w : ℚ)
    (h : d ≤ w) :
    (calibrate_main file d w).saved = false ∧
      (calibrate_main file d w).file = file := by
  simp [calibrate_main, h]

/-- Witness for C6 at `dry = 5`, `wet = 10` over a previously persisted
file. -/
theorem calibrate_main_rejects_inverted_witness :
    (calibrate_main (.object (some 27) (some 5)) 5 10).saved = false ∧
      (calibrate_main (.object (some 27) (some 5)) 5 10).file =
        .object (some 27) (some 5) :=
  calibrate_main_rejects_inverted (.object (some 27) (some 5)) 5 10
    (by norm_num)

/-- C7: when the configuration file is absent or corrupt, loading falls
back to the defaults `dry_freq = 27`, `wet_freq = 5` and writes a fresh
file containing exactly those defaults. -/
theorem configuration_load_fallback (file : FileState)
    (h : file = .absent ∨ file = .corrupt) :
    Configuration.load file =
      ({ dry_freq := 27, wet_freq := 5 }, .object (some 27) (some 5)) := by
  rcases h with h | h <;> subst h <;> rfl

/-- Witness for C7 at the absent file. -/
theorem configuration_load_fallback_witness :
    Configuration.load .absent =
      ({ dry_freq := 27, wet_freq := 5 }, .object (some 27) (some 5)) :=
  configuration_load_fallback .absent (Or.inl rfl)

/-- C8: when a calibration run passes the inversion check (`w < d`) but a
value is outside the plausible range (`d < 15` or `w > 10`), the procedure
warns the operator yet still persists both values to the file. -/
theorem calibrate_main_warns_but_saves (file : FileState) (d w : ℚ)
    (hwd : w < d) (hrange : d < 15 ∨ 10 < w) :
    (calibrate_main file d w).saved = true ∧
      (calibrate_main file d w).file = .object (some d) (some w) ∧
      ((calibrate_main file d w).warned_low_dry = true ∨
        (calibrate_main file d w).warned_high_wet = true) := by
  have hno : ¬ d ≤ w := not_le.mpr hwd
  refine ⟨?_, ?_, ?_⟩
  · simp [calibrate_main, hno]
  · simp [calibrate_main, hno, Configuration.save]
  · rcases hrange with h | h
    · exact Or.inl (by simp [calibrate_main, hno, h])
    · exact Or.inr (by simp [calibrate_main, hno, h])

/-- Witness for C8 at `dry = 12`, `wet = 3` (low dry warning). -/
theorem calibrate_main_warns_but_saves_witness :
    (calibrate_main .absent 12 3).saved = true ∧
      (calibrate_main .absent 12 3).file = .object (some 12) (some 3) ∧
      ((calibrate_main .absent 12 3).warned_low_dry = true ∨
        (calibrate_main .absent 12 3).warned_high_wet = true) :=
  calibrate_main_warns_but_saves .absent 12 3 (by norm_num)
    (Or.inl (by norm_num))

/-- C9: with an inverted calibration `d < w` in effect, the moisture
conversion returns exactly 100 for every frequency input: the clamp
`max (min freq d) w` always yields `w`, so the interpolation collapses to
`(d - w) / (d - w) * 100 = 100`. -/
theorem read_moisture_percent_inverted (d w freq : ℚ) (h : d < w) :
    read_moisture_percent d w freq = 100 := by
  have hne : d ≠ w := ne_of_lt h
  have hclamp : max (min freq d) w = w :=
    max_eq_right (le_of_lt (lt_of_le_of_lt (min_le_right freq d) h))
  have hdw : d - w ≠ 0 := sub_ne_zero.mpr hne
  simp only [read_moisture_percent, hne, if_false, hclamp,
    div_self hdw, one_mul]
  norm_num

/-- Witness for C9 at `d = 5`, `w = 10`, `freq = 7`. -/
theorem read_moisture_percent_inverted_witness :
    read_moisture_percent 5 10 7 = 100 :=
  read_moisture_percent_inverted 5 10 7 (by norm_num)

/-- C10: when the file parses as a JSON object missing `dry_freq` or
`wet_freq`, loading substitutes the default for each missing field
individually (27 for dry, 5 for wet) and does not rewrite the file. -/
theorem configuration_load_missing_fields (d w : ℚ) :
    Configuration.load (.object none (some w)) =
        ({ dry_freq := 27, wet_freq := w }, .object none (some w)) ∧
      Configuration.load (.object (some d) none) =
        ({ dry_freq := d, wet_freq := 5 }, .object (some d) none) ∧
      Configuration.load (.object none none) =
        ({ dry_freq := 27, wet_freq := 5 }, .object none none) := by
  refine ⟨rfl, rfl, rfl⟩

end PicoGrow
